import Mathlib

/-!
Verification of the HA helper module (charmhelpers/contrib/openstack/ha/utils.py).

The Python module is shallowly embedded: each collaborator (charm config lookup,
interface/netmask discovery, address resolution, related-unit query, platform
release) is a field of an `Env` record, dictionaries become association lists
preserving insertion order, and `hashlib.sha1` / `json.dumps` are implemented
faithfully over `Nat` and `String`.
-/

set_option maxRecDepth 100000

/-! ## SHA-1 (model of hashlib.sha1(...).hexdigest()) -/

/-- 32-bit left rotation over `Nat`, reduced mod 2^32. -/
def rotl32 (x n : Nat) : Nat :=
  ((x <<< n) ||| (x >>> (32 - n))) % 4294967296

/-- UTF-8 encoding of one scalar value, as in `str.encode('UTF-8')`. -/
def utf8Char (c : Char) : List Nat :=
  let n := c.toNat
  if n < 128 then [n]
  else if n < 2048 then [192 ||| (n >>> 6), 128 ||| (n &&& 63)]
  else if n < 65536 then
    [224 ||| (n >>> 12), 128 ||| ((n >>> 6) &&& 63), 128 ||| (n &&& 63)]
  else
    [240 ||| (n >>> 18), 128 ||| ((n >>> 12) &&& 63),
     128 ||| ((n >>> 6) &&& 63), 128 ||| (n &&& 63)]

/-- UTF-8 byte sequence of a string. -/
def utf8Encode (s : String) : List Nat :=
  (s.toList.map utf8Char).flatten

/-- `k`-byte big-endian encoding of `n`. -/
def beBytes : Nat → Nat → List Nat
  | 0, _ => []
  | k + 1, n => ((n >>> (8 * k)) % 256) :: beBytes k n

/-- SHA-1 padding: 0x80, zeros to 56 mod 64, then 64-bit big-endian bit length. -/
def sha1Pad (msg : List Nat) : List Nat :=
  let L := msg.length
  let z := (119 - (L % 64)) % 64
  msg ++ (128 :: List.replicate z 0) ++ beBytes 8 (8 * L)

/-- Split a byte list into 64-byte chunks (fuel-driven; fuel ≥ length suffices). -/
def chunks64 : Nat → List Nat → List (List Nat)
  | 0, _ => []
  | _ + 1, [] => []
  | n + 1, l => l.take 64 :: chunks64 n (l.drop 64)

/-- The sixteen 32-bit big-endian words of one 64-byte chunk. -/
def wordsOf (block : List Nat) : List Nat :=
  (List.range 16).map fun i =>
    ((block.getD (4 * i) 0) <<< 24) ||| ((block.getD (4 * i + 1) 0) <<< 16) |||
    ((block.getD (4 * i + 2) 0) <<< 8) ||| (block.getD (4 * i + 3) 0)

/-- Message-schedule extension from 16 to 80 words. -/
def extendWords : Nat → List Nat → List Nat
  | 0, w => w
  | n + 1, w =>
    let t := w.length
    let x := rotl32 ((((w.getD (t - 3) 0) ^^^ (w.getD (t - 8) 0)) ^^^
      (w.getD (t - 14) 0)) ^^^ (w.getD (t - 16) 0)) 1
    extendWords n (w ++ [x])

/-- SHA-1 round function, by round index. -/
def sha1F (i b c d : Nat) : Nat :=
  if i < 20 then (b &&& c) ||| ((b ^^^ 4294967295) &&& d)
  else if i < 40 then (b ^^^ c) ^^^ d
  else if i < 60 then ((b &&& c) ||| (b &&& d)) ||| (c &&& d)
  else (b ^^^ c) ^^^ d

/-- SHA-1 round constant, by round index. -/
def sha1K (i : Nat) : Nat :=
  if i < 20 then 1518500249
  else if i < 40 then 1859775393
  else if i < 60 then 2400959708
  else 3395469782

/-- The 80 compression rounds over (round index, schedule word) pairs. -/
def sha1Rounds : List (Nat × Nat) → Nat × Nat × Nat × Nat × Nat → Nat × Nat × Nat × Nat × Nat
  | [], st => st
  | (i, wi) :: rest, (a, b, c, d, e) =>
    let temp := (rotl32 a 5 + sha1F i b c d + e + sha1K i + wi) % 4294967296
    sha1Rounds rest (temp, a, rotl32 b 30, c, d)

/-- Process one 64-byte chunk. -/
def sha1Block (h : Nat × Nat × Nat × Nat × Nat) (block : List Nat) :
    Nat × Nat × Nat × Nat × Nat :=
  let w := extendWords 64 (wordsOf block)
  match h, sha1Rounds ((List.range 80).zip w) h with
  | (h0, h1, h2, h3, h4), (a, b, c, d, e) =>
    ((h0 + a) % 4294967296, (h1 + b) % 4294967296, (h2 + c) % 4294967296,
     (h3 + d) % 4294967296, (h4 + e) % 4294967296)

/-- SHA-1 digest state of a byte message. -/
def sha1Digest (msg : List Nat) : Nat × Nat × Nat × Nat × Nat :=
  let padded := sha1Pad msg
  (chunks64 padded.length padded).foldl sha1Block
    (1732584193, 4023233417, 2562383102, 271733878, 3285377520)

/-- One lowercase hex digit. -/
def hexDigit (n : Nat) : Char :=
  Char.ofNat (if n < 10 then 48 + n else 87 + n)

/-- `k` lowercase hex digits of `n`, most significant first. -/
def hexN : Nat → Nat → String
  | 0, _ => ""
  | k + 1, n => String.singleton (hexDigit ((n >>> (4 * k)) % 16)) ++ hexN k n

/-- Model of `hashlib.sha1(s.encode('UTF-8')).hexdigest()`. -/
def sha1_hexdigest (s : String) : String :=
  match sha1Digest (utf8Encode s) with
  | (h0, h1, h2, h3, h4) =>
    hexN 8 h0 ++ hexN 8 h1 ++ hexN 8 h2 ++ hexN 8 h3 ++ hexN 8 h4

/-! ## JSON values and the encoder (model of json.dumps with JSON_ENCODE_OPTIONS)

Every value the module ever stores under a top-level relation-data key is
either a string-to-string dict or a list of strings, so the embedded value
type has exactly those two shapes. -/

/-- A top-level relation-data value: a dict of strings or a list of strings. -/
inductive JVal where
  | dict : List (String × String) → JVal
  | list : List String → JVal
deriving DecidableEq

/-- Python truthiness of a relation-data value (`if v`): non-emptiness. -/
def jvalTruthy : JVal → Bool
  | JVal.dict d => !d.isEmpty
  | JVal.list l => !l.isEmpty

/-- One character of a JSON string, escaped as `json.dumps` (ensure_ascii) does. -/
def escapeChar (c : Char) : String :=
  let n := c.toNat
  if c = '"' then "\\\""
  else if c = '\\' then "\\\\"
  else if 32 ≤ n ∧ n < 127 then String.singleton c
  else if c = '\n' then "\\n"
  else if c = '\t' then "\\t"
  else if c = '\r' then "\\r"
  else if n = 8 then "\\b"
  else if n = 12 then "\\f"
  else if n < 65536 then "\\u" ++ hexN 4 n
  else "\\u" ++ hexN 4 (55296 + ((n - 65536) >>> 10)) ++
       "\\u" ++ hexN 4 (56320 + ((n - 65536) &&& 1023))

/-- JSON encoding of a string literal. -/
def jsonStr (s : String) : String :=
  "\"" ++ String.join (s.toList.map escapeChar) ++ "\""

/-- Stable ascending sort of dict entries by key, as `sort_keys=True` sorts. -/
def sortByKey (d : List (String × String)) : List (String × String) :=
  @List.insertionSort _ (fun a b => a.1 ≤ b.1)
    (fun a b => inferInstanceAs (Decidable (a.1 ≤ b.1))) d

/-- Model of `json.dumps(v, **JSON_ENCODE_OPTIONS)`: sorted keys, separators
`(',', ':')`, no indent. -/
def jsonDumps : JVal → String
  | JVal.dict d =>
    "\x7b" ++ String.intercalate ","
      ((sortByKey d).map fun kv => jsonStr kv.1 ++ ":" ++ jsonStr kv.2) ++ "\x7d"
  | JVal.list l =>
    "[" ++ String.intercalate "," (l.map jsonStr) ++ "]"

/-! ## Relation data (the mutable `_relation_data` dictionary)

The dictionary always starts as `{'resources': {}, 'resource_params': {}}`,
so those two entries are structure fields; every further key (groups,
delete_resources, init_services, clones, caller-supplied extras) lives in
`others` in insertion order, exactly as a Python dict preserves it. -/

/-- First-match lookup in an association list (Python `d[k]` / `d.get(k)`). -/
def assocGet {α : Type} : List (String × α) → String → Option α
  | [], _ => none
  | (k', v') :: rest, k => if k' = k then some v' else assocGet rest k

/-- Python `d[k] = v`: replace in place if the key exists, else append. -/
def assocSet {α : Type} : List (String × α) → String → α → List (String × α)
  | [], k, v => [(k, v)]
  | (k', v') :: rest, k, v =>
    if k' = k then (k, v) :: rest else (k', v') :: assocSet rest k v

/-- The in-progress relation payload. -/
structure RelationData where
  resources : List (String × String)
  resource_params : List (String × String)
  others : List (String × JVal)
deriving DecidableEq

/-- The payload as the ordered item list Python's `.items()` would yield. -/
def payloadItems (rd : RelationData) : List (String × JVal) :=
  ("resources", JVal.dict rd.resources) ::
  ("resource_params", JVal.dict rd.resource_params) :: rd.others

/-- One item of the closing dict comprehension: kept (prefixed and encoded)
when truthy, dropped when empty. -/
def serEntry (kv : String × JVal) : Option (String × String) :=
  if jvalTruthy kv.2 then some ("json_" ++ kv.1, jsonDumps kv.2) else none

/-- The dict comprehension closing `generate_ha_relation_data`: keep the truthy
items, prefix keys with `json_`, JSON-encode the values. -/
def serializePayload (rd : RelationData) : List (String × String) :=
  (payloadItems rd).filterMap serEntry

/-! ## The collaborator environment (spec section 6) -/

/-- Outcome of `expected_related_units(reltype='ha')`: a unit list, or one of
the two exception kinds the source catches. -/
inductive RelatedUnits where
  | ok : List String → RelatedUnits
  | notImplemented : RelatedUnits
  | keyError : RelatedUnits
deriving DecidableEq

/-- The injected collaborators: config lookups, network discovery, address
resolution, platform release and related-unit discovery.  `vip_truthy` and
`dnsha_truthy` are the Python truthiness of `config('vip')`/`config('dns-ha')`;
`cluster_vip` is `get_hacluster_config()['vip']`. -/
structure Env where
  is_ipv6 : String → Bool
  get_iface_for_address : String → Option String
  get_netmask_for_address : String → Option String
  vip_iface : Option String
  vip_cidr : Option String
  cluster_vip : String
  config_hostname : String → Option String
  distrib_release : String
  resolve_address : String → String
  related : RelatedUnits
  vip_truthy : Bool
  dnsha_truthy : Bool

/-- Exception model: `status_set('blocked', msg)` followed by
`raise DNSHAException(msg)`. -/
structure DNSHAException where
  status : String × String
  message : String
deriving DecidableEq

/-- Python `str(x)` on an optional string (`None` prints as "None"),
as `str.format` renders interpolated values. -/
def pyStrOpt : Option String → String
  | none => "None"
  | some s => s

/-- Worker for Python `s.split()`: words between whitespace runs, in order. -/
def pyWords : List Char → List Char → List String
  | [], acc => if acc.isEmpty then [] else [String.mk acc.reverse]
  | c :: cs, acc =>
    if c.isWhitespace then
      if acc.isEmpty then pyWords cs [] else String.mk acc.reverse :: pyWords cs []
    else pyWords cs (c :: acc)

/-- Python `s.split()`: split on whitespace runs, dropping empty pieces. -/
def pySplitWhitespace (s : String) : List String :=
  pyWords s.toList []

/-- Python string `<` on code-point sequences, lexicographic. -/
def pyStrLtAux : List Char → List Char → Bool
  | [], [] => false
  | [], _ :: _ => true
  | _ :: _, [] => false
  | a :: as, b :: bs =>
    if a.toNat < b.toNat then true
    else if a.toNat = b.toNat then pyStrLtAux as bs else false

/-- Python `a < b` on strings: lexicographic comparison by code point. -/
def pyStrLt (a b : String) : Bool := pyStrLtAux a.toList b.toList

/-! ## get_vip_settings and update_hacluster_vip -/

/-- Translation of `get_vip_settings(vip)`: discovered iface and netmask, with
charm-config fallback and a flag recording whether any fallback was used. -/
def get_vip_settings (env : Env) (vip : String) : Option String × Option String × Bool :=
  let p1 := match env.get_iface_for_address vip with
    | none => (env.vip_iface, true)
    | some i => (some i, false)
  let p2 := match env.get_netmask_for_address vip with
    | none => (env.vip_cidr, true)
    | some n => (some n, false)
  (p1.1, p2.1, p1.2 || p2.2)

/-- The constant monitor clause of the VIP builder. -/
def vip_monitoring : String := "op monitor depth=\"0\" timeout=\"20s\" interval=\"10s\""

/-- The `res_vip` resource agent selected by the `is_ipv6(vip)` branch. -/
def vipAgent (env : Env) (vip : String) : String :=
  if env.is_ipv6 vip then "ocf:heartbeat:IPv6addr" else "ocf:heartbeat:IPaddr2"

/-- The `vip_params` parameter-key name selected by the `is_ipv6(vip)` branch. -/
def vipParamKey (env : Env) (vip : String) : String :=
  if env.is_ipv6 vip then "ipv6addr" else "ip"

/-- The current resource name
`'res_{}_{}_vip'.format(service, sha1(vip.encode('UTF-8')).hexdigest()[:7])`. -/
def vipKeyName (service vip : String) : String :=
  "res_" ++ service ++ "_" ++ (sha1_hexdigest vip).take 7 ++ "_vip"

/-- The legacy (pre-hash) resource name `'res_{}_{}_vip'.format(service, iface)`. -/
def legacyVipName (service iface : String) : String :=
  "res_" ++ service ++ "_" ++ iface ++ "_vip"

/-- The recorded parameter string: the fallback format with `cidr_netmask`/`nic`
when a config fallback was used, else the auto-detected format. -/
def vipParamString (env : Env) (vip iface : String) : String :=
  let vs := get_vip_settings env vip
  if vs.2.2 then
    "params " ++ vipParamKey env vip ++ "=\"" ++ vip ++ "\" cidr_netmask=\"" ++
      pyStrOpt vs.2.1 ++ "\" nic=\"" ++ iface ++ "\" " ++ vip_monitoring
  else
    "params " ++ vipParamKey env vip ++ "=\"" ++ vip ++ "\" " ++ vip_monitoring

/-- One iteration of the `for vip in cluster_config['vip'].split()` loop,
acting on (relation_data, vip_group, vips_to_delete). -/
def processVip (env : Env) (service vip : String) :
    RelationData × List String × List String → RelationData × List String × List String :=
  fun (rd, vip_group, vips_to_delete) =>
    let vs := get_vip_settings env vip
    match vs.1 with
    | none => (rd, vip_group, vips_to_delete)
    | some iface =>
      let legacy0 := legacyVipName service iface
      let legacy := if legacy0 ∈ vips_to_delete then
          legacy0 ++ "_" ++ vipParamKey env vip else legacy0
      let vip_key := vipKeyName service vip
      ({ rd with
          resources := assocSet rd.resources vip_key (vipAgent env vip),
          resource_params := assocSet rd.resource_params vip_key (vipParamString env vip iface) },
       vip_group ++ [vip_key], vips_to_delete ++ [legacy])

/-- The whole VIP loop, in list order. -/
def processVips (env : Env) (service : String) :
    List String → RelationData × List String × List String →
    RelationData × List String × List String
  | [], st => st
  | v :: vs, st => processVips env service vs (processVip env service v st)

/-- `relation_data['delete_resources'].extend(...)` with the `KeyError`
fallback assignment.  (A pre-existing non-list value would raise an uncaught
`AttributeError` in the source; that branch is never reached by this module
and is embedded as a no-op.) -/
def mergeDeleteResources (rd : RelationData) (dels : List String) : RelationData :=
  match assocGet rd.others "delete_resources" with
  | some (JVal.list l) =>
    { rd with others := assocSet rd.others "delete_resources" (JVal.list (l ++ dels)) }
  | some (JVal.dict _) => rd
  | none => { rd with others := assocSet rd.others "delete_resources" (JVal.list dels) }

/-- `relation_data['groups'][key] = val` with the `KeyError` fallback that
creates a fresh one-entry dict.  (A pre-existing non-dict value would raise an
uncaught `TypeError` in the source; embedded as a no-op, never reached.) -/
def setVipGroups (rd : RelationData) (key val : String) : RelationData :=
  match assocGet rd.others "groups" with
  | some (JVal.dict g) =>
    { rd with others := assocSet rd.others "groups" (JVal.dict (assocSet g key val)) }
  | some (JVal.list _) => rd
  | none => { rd with others := assocSet rd.others "groups" (JVal.dict [(key, val)]) }

/-- Body of `update_hacluster_vip` after the VIP string has been split. -/
def update_hacluster_vip_on (env : Env) (service : String) (vips : List String)
    (rd : RelationData) : RelationData :=
  let st := processVips env service vips (rd, [], [])
  let rd1 := st.1
  let vip_group := st.2.1
  let vips_to_delete := st.2.2
  let rd2 := if vips_to_delete.isEmpty then rd1 else mergeDeleteResources rd1 vips_to_delete
  if 1 ≤ vip_group.length then
    setVipGroups rd2 ("grp_" ++ service ++ "_vips") (String.intercalate " " vip_group)
  else rd2

/-- Translation of `update_hacluster_vip(service, relation_data)`. -/
def update_hacluster_vip (env : Env) (service : String) (rd : RelationData) : RelationData :=
  update_hacluster_vip_on env service (pySplitWhitespace env.cluster_vip) rd

/-- The `groups[name]` entry of a payload, when `groups` holds a dict. -/
def groupsLookup (rd : RelationData) (name : String) : Option String :=
  match assocGet rd.others "groups" with
  | some (JVal.dict g) => assocGet g name
  | some (JVal.list _) => none
  | none => none

/-- Number of VIPs in the list whose interface resolves (discovery or fallback). -/
def resolvedCount (env : Env) (vips : List String) : Nat :=
  (vips.filter fun v => ((get_vip_settings env v).1).isSome).length

/-! ## assert_charm_supports_dns_ha and update_hacluster_dns_ha -/

/-- Translation of `assert_charm_supports_dns_ha()`: lexicographic string
comparison (Python `<`) of the platform release against "16.04". -/
def assert_charm_supports_dns_ha (env : Env) : Except DNSHAException Unit :=
  if pyStrLt env.distrib_release "16.04" then
    let msg := "DNS HA is only supported on 16.04 and greater versions of Ubuntu."
    Except.error ⟨("blocked", msg), msg⟩
  else Except.ok ()

/-- The lazy `(.+?)` group: the shortest non-empty chunk after which the
pattern occurs literally in the remainder. -/
def lazyGroupAux (pat acc : List Char) : List Char → Option (List Char)
  | [] => none
  | c :: cs =>
    if pat.isPrefixOf cs then some (acc ++ [c]) else lazyGroupAux pat (acc ++ [c]) cs

/-- Model of `re.search('os-(.+?)-hostname', setting)` group 1, for a match
anchored at the `os-` prefix (all setting names this module iterates start
with it): the shortest non-empty text after `os-` followed by a literal
`-hostname` occurrence. -/
def endpointTypeOf (setting : String) : Option String :=
  let cs := setting.toList
  if List.isPrefixOf "os-".toList cs then
    match lazyGroupAux "-hostname".toList [] (cs.drop 3) with
    | some g => some (String.mk g)
    | none => none
  else none

/-- `'res_{}_{}_hostname'.format(service, endpoint_type)`. -/
def dnsKeyName (service endpoint_type : String) : String :=
  "res_" ++ service ++ "_" ++ endpoint_type ++ "_hostname"

/-- The four fixed DNS settings, in declared order. -/
def dns_settings : List String :=
  ["os-admin-hostname", "os-internal-hostname", "os-public-hostname", "os-access-hostname"]

/-- The `for setting in settings` loop of `update_hacluster_dns_ha`, acting on
(relation_data, hostname_group). -/
def dnsLoop (env : Env) (service crm_ocf : String) :
    List String → RelationData → List String →
    Except DNSHAException (RelationData × List String)
  | [], rd, group => Except.ok (rd, group)
  | setting :: rest, rd, group =>
    match env.config_hostname setting with
    | none => dnsLoop env service crm_ocf rest rd group
    | some hostname =>
      match endpointTypeOf setting with
      | none =>
        let msg := "Unexpected DNS hostname setting: " ++ setting ++
          ". Cannot determine endpoint_type name"
        Except.error ⟨("blocked", msg), msg⟩
      | some et0 =>
        let endpoint_type := if et0 = "internal" then "int" else et0
        let hostname_key := dnsKeyName service endpoint_type
        if hostname_key ∈ group then
          dnsLoop env service crm_ocf rest rd group
        else
          let rd := { rd with
            resources := assocSet rd.resources hostname_key crm_ocf,
            resource_params := assocSet rd.resource_params hostname_key
              ("params fqdn=\"" ++ hostname ++ "\" ip_address=\"" ++
                env.resolve_address endpoint_type ++ "\"") }
          dnsLoop env service crm_ocf rest rd (group ++ [hostname_key])

/-- `update_hacluster_dns_ha` after the version assertion has passed. -/
def dnsProcess (env : Env) (service crm_ocf : String) (rd : RelationData) :
    Except DNSHAException RelationData :=
  match dnsLoop env service crm_ocf dns_settings rd [] with
  | Except.error e => Except.error e
  | Except.ok (rd1, group) =>
    if 1 ≤ group.length then
      let g := JVal.dict [("grp_" ++ service ++ "_hostnames", String.intercalate " " group)]
      Except.ok { rd1 with others := assocSet rd1.others "groups" g }
    else
      let msg := "DNS HA: Hostname group has no members."
      Except.error ⟨("blocked", msg), msg⟩

/-- Translation of `update_hacluster_dns_ha(service, relation_data, crm_ocf)`. -/
def update_hacluster_dns_ha (env : Env) (service crm_ocf : String) (rd : RelationData) :
    Except DNSHAException RelationData :=
  match assert_charm_supports_dns_ha env with
  | Except.error e => Except.error e
  | Except.ok _ => dnsProcess env service crm_ocf rd

/-- The hostname keys the DNS loop will collect: one per setting whose config
value is present, in order. -/
def dnsUsableKeys (env : Env) (s : String) (settings : List String) : List String :=
  settings.filterMap fun st =>
    match env.config_hostname st, endpointTypeOf st with
    | some _, some e => some (dnsKeyName s (if e = "internal" then "int" else e))
    | _, _ => none

/-! ## expect_ha -/

/-- The `ha_related_units` the try/except leaves behind: the unit list on
success, `[]` when the lookup raised `NotImplementedError` or `KeyError`. -/
def haRelatedUnits (env : Env) : List String :=
  match env.related with
  | RelatedUnits.ok us => us
  | RelatedUnits.notImplemented => []
  | RelatedUnits.keyError => []

/-- Translation of `expect_ha()` (its Python truthiness). -/
def expect_ha (env : Env) : Bool :=
  decide (0 < (haRelatedUnits env).length) || env.vip_truthy || env.dnsha_truthy

/-! ## generate_ha_relation_data -/

/-- Python `dict.update` over string dicts: merge, right side winning. -/
def dictUpdate (d newd : List (String × String)) : List (String × String) :=
  newd.foldl (fun acc kv => assocSet acc kv.1 kv.2) d

/-- `_relation_data[k].update(v)` for the value shapes this module stores
(dict with dict; any other combination raises uncaught in the source and is
never reached — embedded as keeping the old value). -/
def jvalUpdate : JVal → JVal → JVal
  | JVal.dict d, JVal.dict nd => JVal.dict (dictUpdate d nd)
  | v, _ => v

/-- One step of the `for k, v in extra_settings.items()` merge loop. -/
def mergeExtraEntry (rd : RelationData) (k : String) (v : JVal) : RelationData :=
  if k = "resources" then
    match v with
    | JVal.dict d =>
      if rd.resources.isEmpty then { rd with resources := d }
      else { rd with resources := dictUpdate rd.resources d }
    | JVal.list _ => rd
  else if k = "resource_params" then
    match v with
    | JVal.dict d =>
      if rd.resource_params.isEmpty then { rd with resource_params := d }
      else { rd with resource_params := dictUpdate rd.resource_params d }
    | JVal.list _ => rd
  else
    match assocGet rd.others k with
    | some old =>
      if jvalTruthy old then { rd with others := assocSet rd.others k (jvalUpdate old v) }
      else { rd with others := assocSet rd.others k v }
    | none => { rd with others := assocSet rd.others k v }

/-- The extra-settings merge loop. -/
def mergeExtra (rd : RelationData) (extra : List (String × JVal)) : RelationData :=
  extra.foldl (fun acc kv => mergeExtraEntry acc kv.1 kv.2) rd

/-- Translation of `generate_ha_relation_data(service, haproxy_enabled,
extra_settings)`.  Pure, so identical input yields the identical encoded
payload by construction. -/
def generate_ha_relation_data (env : Env) (service : String) (haproxy_enabled : Bool)
    (extra_settings : Option (List (String × JVal))) :
    Except DNSHAException (List (String × String)) :=
  let rd0 : RelationData := { resources := [], resource_params := [], others := [] }
  let rd1 := if haproxy_enabled then
      let hres := "res_" ++ service ++ "_haproxy"
      { resources := [(hres, "lsb:haproxy")],
        resource_params := [(hres, "op monitor interval=\"5s\"")],
        others := [("init_services", JVal.dict [(hres, "haproxy")]),
                   ("clones", JVal.dict [("cl_" ++ service ++ "_haproxy", hres)])] }
    else rd0
  let rd2 := match extra_settings with
    | none => rd1
    | some ex => if ex.isEmpty then rd1 else mergeExtra rd1 ex
  if env.dnsha_truthy then
    match update_hacluster_dns_ha env service "ocf:maas:dns" rd2 with
    | Except.error e => Except.error e
    | Except.ok rd3 => Except.ok (serializePayload rd3)
  else
    Except.ok (serializePayload (update_hacluster_vip env service rd2))

/-! ## Concrete environments for witnesses and counterexamples -/

/-- An initially empty relation payload, as both builders receive it. -/
def rdEmpty : RelationData := { resources := [], resource_params := [], others := [] }

/-- Collaborators that discover nothing and hold no configuration. -/
def envMin : Env := {
  is_ipv6 := fun _ => false
  get_iface_for_address := fun _ => none
  get_netmask_for_address := fun _ => none
  vip_iface := none
  vip_cidr := none
  cluster_vip := ""
  config_hostname := fun _ => none
  distrib_release := "20.04"
  resolve_address := fun _ => ""
  related := RelatedUnits.ok []
  vip_truthy := false
  dnsha_truthy := false }

/-- The spec's running example: service nova, VIP 10.0.0.5, discovery finds
eth0 / 255.255.255.0. -/
def envNova : Env := { envMin with
  get_iface_for_address := fun _ => some "eth0"
  get_netmask_for_address := fun _ => some "255.255.255.0"
  cluster_vip := "10.0.0.5"
  vip_truthy := true }

/-- Three distinct IPv4 VIPs that all discover the same interface. -/
def envThreeVips : Env := { envNova with cluster_vip := "10.0.0.5 10.0.0.6 10.0.0.7" }

/-- The same VIP listed twice. -/
def envDupVip : Env := { envNova with cluster_vip := "10.0.0.5 10.0.0.5" }

/-- Platform release below the DNS-HA minimum. -/
def envTrusty : Env := { envMin with distrib_release := "14.04" }

/-- Platform release exactly at the DNS-HA minimum. -/
def envXenial : Env := { envMin with distrib_release := "16.04" }

/-- Only the admin hostname setting configured. -/
def envDnsAdmin : Env := { envMin with
  config_hostname := fun st => if st = "os-admin-hostname" then some "adminhost" else none }

/-- Only the internal hostname setting configured. -/
def envDnsInternal : Env := { envMin with
  config_hostname := fun st => if st = "os-internal-hostname" then some "inthost" else none }

/-- Related-unit lookup raising NotImplementedError, dns-ha config truthy. -/
def envNotImpl : Env := { envMin with
  related := RelatedUnits.notImplemented
  dnsha_truthy := true }

/-- A payload with one non-empty resources entry, for the serializer witness. -/
def rdOneRes : RelationData :=
  { resources := [("a", "b")], resource_params := [], others := [] }

/-! ## Helper lemmas -/

theorem strEq_of_data {a b : String} (h : a.data = b.data) : a = b := by
  cases a; cases b; exact congrArg String.mk h

theorem dnsKeyName_ne (s : String) {a b : String} (h : a.data ≠ b.data) :
    dnsKeyName s a ≠ dnsKeyName s b := by
  intro he
  apply h
  have hd := congrArg String.data he
  simp only [dnsKeyName, String.data_append, List.append_assoc] at hd
  exact List.append_cancel_right
    (List.append_cancel_left (List.append_cancel_left (List.append_cancel_left hd)))

theorem assocGet_set_self {α : Type} (d : List (String × α)) (k : String) (v : α) :
    assocGet (assocSet d k v) k = some v := by
  induction d with
  | nil => simp [assocSet, assocGet]
  | cons hd tl ih =>
    obtain ⟨k0, v0⟩ := hd
    by_cases h0 : k0 = k
    · simp [assocSet, assocGet, h0]
    · simp [assocSet, assocGet, h0, ih]

theorem assocGet_set_ne {α : Type} (d : List (String × α)) {k k' : String} (v : α)
    (h : k ≠ k') : assocGet (assocSet d k v) k' = assocGet d k' := by
  induction d with
  | nil => simp [assocSet, assocGet, h]
  | cons hd tl ih =>
    obtain ⟨k0, v0⟩ := hd
    simp only [assocSet]
    by_cases h0 : k0 = k
    · subst h0
      rw [if_pos rfl]
      simp [assocGet, h]
    · rw [if_neg h0]
      simp only [assocGet]
      by_cases h1 : k0 = k' <;> simp [h1, ih]

theorem mergeDeleteResources_resources (rd : RelationData) (dels : List String) :
    (mergeDeleteResources rd dels).resources = rd.resources := by
  cases hd : assocGet rd.others "delete_resources" with
  | none => simp [mergeDeleteResources, hd]
  | some v => cases v <;> simp [mergeDeleteResources, hd]

theorem mergeDeleteResources_resource_params (rd : RelationData) (dels : List String) :
    (mergeDeleteResources rd dels).resource_params = rd.resource_params := by
  cases hd : assocGet rd.others "delete_resources" with
  | none => simp [mergeDeleteResources, hd]
  | some v => cases v <;> simp [mergeDeleteResources, hd]

theorem mergeDeleteResources_get_ne (rd : RelationData) (dels : List String) (k : String)
    (h : k ≠ "delete_resources") :
    assocGet (mergeDeleteResources rd dels).others k = assocGet rd.others k := by
  cases hd : assocGet rd.others "delete_resources" with
  | none => simp [mergeDeleteResources, hd, assocGet_set_ne _ _ (Ne.symm h)]
  | some v => cases v <;> simp [mergeDeleteResources, hd, assocGet_set_ne _ _ (Ne.symm h)]

theorem setVipGroups_resources (rd : RelationData) (k v : String) :
    (setVipGroups rd k v).resources = rd.resources := by
  cases hg : assocGet rd.others "groups" with
  | none => simp [setVipGroups, hg]
  | some w => cases w <;> simp [setVipGroups, hg]

theorem setVipGroups_resource_params (rd : RelationData) (k v : String) :
    (setVipGroups rd k v).resource_params = rd.resource_params := by
  cases hg : assocGet rd.others "groups" with
  | none => simp [setVipGroups, hg]
  | some w => cases w <;> simp [setVipGroups, hg]

theorem setVipGroups_get_ne (rd : RelationData) (k v k' : String) (h : k' ≠ "groups") :
    assocGet (setVipGroups rd k v).others k' = assocGet rd.others k' := by
  cases hg : assocGet rd.others "groups" with
  | none => simp [setVipGroups, hg, assocGet_set_ne _ _ (Ne.symm h)]
  | some w => cases w <;> simp [setVipGroups, hg, assocGet_set_ne _ _ (Ne.symm h)]

theorem setVipGroups_lookup_self (rd : RelationData) (key val : String)
    (h : ∀ l, assocGet rd.others "groups" ≠ some (JVal.list l)) :
    groupsLookup (setVipGroups rd key val) key = some val := by
  cases hg : assocGet rd.others "groups" with
  | none => simp [setVipGroups, hg, groupsLookup, assocGet_set_self, assocGet]
  | some w =>
    cases w with
    | dict g => simp [setVipGroups, hg, groupsLookup, assocGet_set_self]
    | list l => exact absurd hg (h l)

theorem processVip_none (env : Env) (s v : String)
    (st : RelationData × List String × List String)
    (h : (get_vip_settings env v).1 = none) : processVip env s v st = st := by
  obtain ⟨rd, g, d⟩ := st
  simp [processVip, h]

theorem processVip_some_shape (env : Env) (s v : String) (rd : RelationData)
    (g d : List String) (i : String) (h : (get_vip_settings env v).1 = some i) :
    processVip env s v (rd, g, d) =
      ({ rd with
          resources := assocSet rd.resources (vipKeyName s v) (vipAgent env v),
          resource_params :=
            assocSet rd.resource_params (vipKeyName s v) (vipParamString env v i) },
       g ++ [vipKeyName s v],
       d ++ [if legacyVipName s i ∈ d then
              legacyVipName s i ++ "_" ++ vipParamKey env v else legacyVipName s i]) := by
  simp [processVip, h]

theorem processVips_spec (env : Env) (s : String) :
    ∀ (vips : List String) (rd : RelationData) (g d : List String),
    ∃ (rd' : RelationData) (gN dN : List String),
      processVips env s vips (rd, g, d) = (rd', g ++ gN, d ++ dN) ∧
      gN.length = resolvedCount env vips ∧ dN.length = resolvedCount env vips ∧
      rd'.others = rd.others ∧ (resolvedCount env vips = 0 → rd' = rd)
  | [], rd, g, d => ⟨rd, [], [], by simp [processVips, resolvedCount]⟩
  | v :: vs, rd, g, d => by
    cases h : (get_vip_settings env v).1 with
    | none =>
      obtain ⟨rd', gN, dN, heq, hg, hd, ho, h0⟩ := processVips_spec env s vs rd g d
      have hcount : resolvedCount env (v :: vs) = resolvedCount env vs := by
        simp [resolvedCount, List.filter_cons, h]
      refine ⟨rd', gN, dN, ?_, ?_, ?_, ho, ?_⟩
      · simp [processVips, processVip_none env s v _ h, heq]
      · rw [hcount]; exact hg
      · rw [hcount]; exact hd
      · rw [hcount]; exact h0
    | some i =>
      obtain ⟨rd', gN, dN, heq, hg, hd, ho, _⟩ :=
        processVips_spec env s vs
          { rd with
            resources := assocSet rd.resources (vipKeyName s v) (vipAgent env v),
            resource_params :=
              assocSet rd.resource_params (vipKeyName s v) (vipParamString env v i) }
          (g ++ [vipKeyName s v])
          (d ++ [if legacyVipName s i ∈ d then
                  legacyVipName s i ++ "_" ++ vipParamKey env v else legacyVipName s i])
      have hcount : resolvedCount env (v :: vs) = resolvedCount env vs + 1 := by
        simp [resolvedCount, List.filter_cons, h]
      refine ⟨rd', vipKeyName s v :: gN,
        (if legacyVipName s i ∈ d then
          legacyVipName s i ++ "_" ++ vipParamKey env v else legacyVipName s i) :: dN,
        ?_, ?_, ?_, ho, ?_⟩
      · simpa [processVips, processVip_some_shape env s v rd g d i h] using heq
      · simp [hcount, hg, Nat.add_comm]
      · simp [hcount, hd, Nat.add_comm]
      · intro hc
        rw [hcount] at hc
        omega

theorem processVips_others (env : Env) (s : String) (vips : List String)
    (rd : RelationData) (g d : List String) :
    ((processVips env s vips (rd, g, d)).1).others = rd.others := by
  obtain ⟨rd', gN, dN, heq, -, -, ho, -⟩ := processVips_spec env s vips rd g d
  rw [heq]
  exact ho

theorem processVips_drop (env : Env) (s v : String)
    (h : ∀ st, processVip env s v st = st) :
    ∀ (l1 l2 : List String) (st : RelationData × List String × List String),
    processVips env s (l1 ++ v :: l2) st = processVips env s (l1 ++ l2) st
  | [], l2, st => by simp [processVips, h st]
  | a :: l1, l2, st => by
    simp only [List.cons_append, processVips]
    exact processVips_drop env s v h l1 l2 _

theorem dnsLoop_ok (env : Env) (s crm : String) :
    ∀ (settings : List String) (rd : RelationData) (group : List String),
    (∀ st ∈ settings, (env.config_hostname st).isSome → (endpointTypeOf st).isSome) →
    (group ++ dnsUsableKeys env s settings).Nodup →
    ∃ rd', dnsLoop env s crm settings rd group =
      Except.ok (rd', group ++ dnsUsableKeys env s settings)
  | [], rd, group, _, _ => ⟨rd, by simp [dnsLoop, dnsUsableKeys]⟩
  | st :: rest, rd, group, hep, hnd => by
    cases hc : env.config_hostname st with
    | none =>
      have hk : dnsUsableKeys env s (st :: rest) = dnsUsableKeys env s rest := by
        simp [dnsUsableKeys, List.filterMap_cons, hc]
      rw [hk] at hnd ⊢
      obtain ⟨rd', hh⟩ := dnsLoop_ok env s crm rest rd group
        (fun a ha => hep a (List.mem_cons_of_mem _ ha)) hnd
      exact ⟨rd', by simp [dnsLoop, hc, hh]⟩
    | some hn =>
      have hsome : (endpointTypeOf st).isSome :=
        hep st (List.mem_cons_self _ _) (by simp [hc])
      obtain ⟨e, he⟩ := Option.isSome_iff_exists.mp hsome
      have hk : dnsUsableKeys env s (st :: rest) =
          dnsKeyName s (if e = "internal" then "int" else e) :: dnsUsableKeys env s rest := by
        simp [dnsUsableKeys, List.filterMap_cons, hc, he]
      rw [hk] at hnd ⊢
      have hnotin : dnsKeyName s (if e = "internal" then "int" else e) ∉ group := by
        rcases List.nodup_append.mp hnd with ⟨-, -, hdisj⟩
        intro hmem
        exact hdisj hmem (List.mem_cons_self _ _)
      have hnd' : ((group ++ [dnsKeyName s (if e = "internal" then "int" else e)]) ++
          dnsUsableKeys env s rest).Nodup := by
        simpa [List.append_assoc] using hnd
      obtain ⟨rd', hh⟩ := dnsLoop_ok env s crm rest
        { rd with
          resources := assocSet rd.resources
            (dnsKeyName s (if e = "internal" then "int" else e)) crm,
          resource_params := assocSet rd.resource_params
            (dnsKeyName s (if e = "internal" then "int" else e))
            ("params fqdn=\"" ++ hn ++ "\" ip_address=\"" ++
              env.resolve_address (if e = "internal" then "int" else e) ++ "\"") }
        (group ++ [dnsKeyName s (if e = "internal" then "int" else e)])
        (fun a ha => hep a (List.mem_cons_of_mem _ ha)) hnd'
      refine ⟨rd', ?_⟩
      simp only [dnsLoop, hc, he]
      rw [if_neg hnotin, hh]
      congr 1
      simp [List.append_assoc]

theorem dnsUsableKeys_sublist (env : Env) (s : String) :
    ∀ settings : List String,
      List.Sublist (dnsUsableKeys env s settings)
        (settings.filterMap fun st =>
          (endpointTypeOf st).map fun e => dnsKeyName s (if e = "internal" then "int" else e))
  | [] => by simp [dnsUsableKeys]
  | st :: rest => by
    have ih := dnsUsableKeys_sublist env s rest
    cases hc : env.config_hostname st with
    | none =>
      cases he : endpointTypeOf st with
      | none => simpa [dnsUsableKeys, List.filterMap_cons, hc, he] using ih
      | some e =>
        simp only [dnsUsableKeys, List.filterMap_cons, hc, he, Option.map_some']
        exact ih.cons _
    | some hn =>
      cases he : endpointTypeOf st with
      | none => simpa [dnsUsableKeys, List.filterMap_cons, hc, he] using ih
      | some e =>
        simp only [dnsUsableKeys, List.filterMap_cons, hc, he, Option.map_some']
        exact ih.cons₂ _

theorem dnsAllKeys_nodup (s : String) :
    (dns_settings.filterMap fun st =>
      (endpointTypeOf st).map fun e =>
        dnsKeyName s (if e = "internal" then "int" else e)).Nodup := by
  have hlist : (dns_settings.filterMap fun st =>
      (endpointTypeOf st).map fun e =>
        dnsKeyName s (if e = "internal" then "int" else e)) =
      [dnsKeyName s "admin", dnsKeyName s "int", dnsKeyName s "public",
       dnsKeyName s "access"] := by rfl
  rw [hlist]
  have h1 := dnsKeyName_ne s (a := "admin") (b := "int") (by decide)
  have h2 := dnsKeyName_ne s (a := "admin") (b := "public") (by decide)
  have h3 := dnsKeyName_ne s (a := "admin") (b := "access") (by decide)
  have h4 := dnsKeyName_ne s (a := "int") (b := "public") (by decide)
  have h5 := dnsKeyName_ne s (a := "int") (b := "access") (by decide)
  have h6 := dnsKeyName_ne s (a := "public") (b := "access") (by decide)
  simp [List.nodup_cons, List.mem_cons, h1, h2, h3, h4, h5, h6]

theorem dnsUsableKeys_nodup (env : Env) (s : String) :
    (dnsUsableKeys env s dns_settings).Nodup :=
  (dnsUsableKeys_sublist env s dns_settings).nodup (dnsAllKeys_nodup s)

theorem serKeys : ∀ l : List (String × JVal),
    (l.filterMap serEntry).map Prod.fst =
      (l.filter fun kv => jvalTruthy kv.2).map fun kv => "json_" ++ kv.1
  | [] => rfl
  | kv :: rest => by
    by_cases h : jvalTruthy kv.2 <;>
      simp [serEntry, List.filterMap_cons, List.filter_cons, h, serKeys rest]

theorem serMem (l : List (String × JVal)) (kv : String × JVal) (hm : kv ∈ l)
    (ht : jvalTruthy kv.2 = true) :
    ("json_" ++ kv.1, jsonDumps kv.2) ∈ l.filterMap serEntry :=
  List.mem_filterMap.mpr ⟨kv, hm, by simp [serEntry, ht]⟩

/-- Sanity anchor: the SHA-1 model reproduces the standard "abc" test vector. -/
theorem sha1_hexdigest_abc :
    sha1_hexdigest "abc" = "a9993e364706816aba3e25717850c26c9cd0d89d" := by decide

/-! ## Claim theorems -/

/-- C1, counterexample: the VIP builder does not record the name
`res_{service}_{sha1(vip)[:7]}`; for service nova and VIP 10.0.0.5 the
recorded key is `res_nova_00d7353_vip` (a `_vip` suffix follows the hash
prefix) and no `res_nova_00d7353` key exists. -/
theorem C1_counterexample :
    (update_hacluster_vip envNova "nova" rdEmpty).resources =
      [("res_nova_00d7353_vip", "ocf:heartbeat:IPaddr2")] ∧
    assocGet (update_hacluster_vip envNova "nova" rdEmpty).resources
      ("res_nova_" ++ (sha1_hexdigest "10.0.0.5").take 7) = none ∧
    (sha1_hexdigest "10.0.0.5").take 7 = "00d7353" := by
  decide

/-- C1, amended: for every service and VIP whose interface resolves, the
recorded current resource name is exactly
`res_{service}_{sha1(vip)[:7]}_vip` — `res_` + service + `_` + the first 7
hex characters of the SHA-1 digest of the UTF-8 encoded VIP + `_vip` — and
the name depends only on (service, vip), so identical inputs give the
identical name. -/
theorem C1_current_resource_name (env : Env) (s : String) (rd : RelationData)
    (v i : String) (h : (get_vip_settings env v).1 = some i) :
    (update_hacluster_vip_on env s [v] rd).resources =
      assocSet rd.resources (vipKeyName s v) (vipAgent env v) ∧
    vipKeyName s v = "res_" ++ s ++ "_" ++ (sha1_hexdigest v).take 7 ++ "_vip" := by
  refine ⟨?_, rfl⟩
  simp only [update_hacluster_vip_on, processVips,
    processVip_some_shape env s v rd [] [] i h, List.nil_append]
  simp [setVipGroups_resources, mergeDeleteResources_resources]

/-- C1, witness for the amended theorem at the nova example. -/
theorem C1_witness :
    (get_vip_settings envNova "10.0.0.5").1 = some "eth0" ∧
    ((update_hacluster_vip_on envNova "nova" ["10.0.0.5"] rdEmpty).resources =
      assocSet rdEmpty.resources (vipKeyName "nova" "10.0.0.5") (vipAgent envNova "10.0.0.5") ∧
    vipKeyName "nova" "10.0.0.5" =
      "res_" ++ "nova" ++ "_" ++ (sha1_hexdigest "10.0.0.5").take 7 ++ "_vip") :=
  ⟨by decide, C1_current_resource_name envNova "nova" rdEmpty "10.0.0.5" "eth0" (by decide)⟩

/-- C3, counterexample: for service nova and three IPv4 VIPs that all resolve
to eth0, the pending-deletion list is
`[res_nova_eth0_vip, res_nova_eth0_vip_ip, res_nova_eth0_vip_ip]` — the
legacy names carry a `_vip` suffix (so `res_nova_eth0` is never an entry) and
the list is not duplicate-free. -/
theorem C3_counterexample :
    assocGet (update_hacluster_vip envThreeVips "nova" rdEmpty).others "delete_resources" =
      some (JVal.list ["res_nova_eth0_vip", "res_nova_eth0_vip_ip", "res_nova_eth0_vip_ip"]) ∧
    "res_nova_eth0" ∉ ["res_nova_eth0_vip", "res_nova_eth0_vip_ip", "res_nova_eth0_vip_ip"] ∧
    ¬ ["res_nova_eth0_vip", "res_nova_eth0_vip_ip", "res_nova_eth0_vip_ip"].Nodup := by
  decide

/-- C3, amended: for every VIP whose interface was identified the legacy name
is `res_{service}_{iface}_vip`; the parameter-key suffix is appended when
that base name already occurs in the pending-deletion list (a third VIP on
the same interface hence appends a duplicate); each resulting name is
appended, and the list is merged (extended, not overwritten) into
delete_resources. -/
theorem C3_legacy_delete_names (env : Env) (s : String) (rd : RelationData)
    (v1 v2 i : String) (l0 : List String)
    (h1 : (get_vip_settings env v1).1 = some i)
    (h2 : (get_vip_settings env v2).1 = some i)
    (h3 : env.is_ipv6 v2 = false)
    (h4 : assocGet rd.others "delete_resources" = some (JVal.list l0)) :
    assocGet (update_hacluster_vip_on env s [v1, v2] rd).others "delete_resources" =
      some (JVal.list (l0 ++ [legacyVipName s i, legacyVipName s i ++ "_" ++ "ip"])) := by
  have hpk : vipParamKey env v2 = "ip" := by simp [vipParamKey, h3]
  simp only [update_hacluster_vip_on, processVips,
    processVip_some_shape env s v1 rd [] [] i h1, List.nil_append,
    List.not_mem_nil, if_false]
  rw [processVip_some_shape env s v2 _ [vipKeyName s v1] [legacyVipName s i] i h2]
  simp only [List.mem_singleton, if_pos rfl, hpk]
  have hne : ("delete_resources" : String) ≠ "groups" := by decide
  simp [setVipGroups_get_ne _ _ _ _ hne, mergeDeleteResources, h4, assocGet_set_self]

/-- C3, witness for the amended theorem: two VIPs on eth0 with a
pre-existing delete_resources list. -/
theorem C3_witness :
    assocGet (update_hacluster_vip_on envNova "nova" ["10.0.0.5", "10.0.0.6"]
        { rdEmpty with others := [("delete_resources", JVal.list ["old"])] }).others
      "delete_resources" =
      some (JVal.list (["old"] ++ [legacyVipName "nova" "eth0",
        legacyVipName "nova" "eth0" ++ "_" ++ "ip"])) :=
  C3_legacy_delete_names envNova "nova"
    { rdEmpty with others := [("delete_resources", JVal.list ["old"])] }
    "10.0.0.5" "10.0.0.6" "eth0" ["old"] (by decide) (by decide) (by decide) (by decide)

/-- C4, counterexample: in the auto-detected case the recorded parameter
string starts with `params ` — it is
`params ip="10.0.0.5" op monitor ...`, not the claimed
`ip="10.0.0.5" op monitor ...`. -/
theorem C4_counterexample :
    assocGet (update_hacluster_vip envNova "nova" rdEmpty).resource_params
      "res_nova_00d7353_vip" = some ("params ip=\"10.0.0.5\" " ++ vip_monitoring) ∧
    ("params ip=\"10.0.0.5\" " ++ vip_monitoring) ≠ ("ip=\"10.0.0.5\" " ++ vip_monitoring) := by
  decide

/-- C4, amended: the recorded parameter string always ends with the monitor
clause `op monitor depth="0" timeout="20s" interval="10s"`; with a fallback
it is `params {paramkey}="{vip}" cidr_netmask="{netmask}" nic="{iface}"
{monitor}` and in the auto-detected case `params {paramkey}="{vip}"
{monitor}` with no cidr_netmask/nic fields (paramkey `ipv6addr` for IPv6
VIPs, `ip` for IPv4). -/
theorem C4_param_string (env : Env) (s : String) (rd : RelationData)
    (v i : String) (h : (get_vip_settings env v).1 = some i) :
    (update_hacluster_vip_on env s [v] rd).resource_params =
      assocSet rd.resource_params (vipKeyName s v) (vipParamString env v i) ∧
    vipParamString env v i =
      (if (get_vip_settings env v).2.2 then
        "params " ++ vipParamKey env v ++ "=\"" ++ v ++ "\" cidr_netmask=\"" ++
          pyStrOpt (get_vip_settings env v).2.1 ++ "\" nic=\"" ++ i ++ "\" " ++ vip_monitoring
      else
        "params " ++ vipParamKey env v ++ "=\"" ++ v ++ "\" " ++ vip_monitoring) ∧
    (∃ p, vipParamString env v i = p ++ vip_monitoring) := by
  refine ⟨?_, rfl, ?_⟩
  · simp only [update_hacluster_vip_on, processVips,
      processVip_some_shape env s v rd [] [] i h, List.nil_append]
    simp [setVipGroups_resource_params, mergeDeleteResources_resource_params]
  · by_cases hf : (get_vip_settings env v).2.2 <;>
      simp only [vipParamString, hf, if_true, if_false] <;> exact ⟨_, rfl⟩

/-- C4, witness for the amended theorem at the nova example. -/
theorem C4_witness :
    (update_hacluster_vip_on envNova "nova" ["10.0.0.5"] rdEmpty).resource_params =
      assocSet rdEmpty.resource_params (vipKeyName "nova" "10.0.0.5")
        (vipParamString envNova "10.0.0.5" "eth0") ∧
    vipParamString envNova "10.0.0.5" "eth0" =
      (if (get_vip_settings envNova "10.0.0.5").2.2 then
        "params " ++ vipParamKey envNova "10.0.0.5" ++ "=\"" ++ "10.0.0.5" ++
          "\" cidr_netmask=\"" ++ pyStrOpt (get_vip_settings envNova "10.0.0.5").2.1 ++
          "\" nic=\"" ++ "eth0" ++ "\" " ++ vip_monitoring
      else
        "params " ++ vipParamKey envNova "10.0.0.5" ++ "=\"" ++ "10.0.0.5" ++ "\" " ++
          vip_monitoring) ∧
    (∃ p, vipParamString envNova "10.0.0.5" "eth0" = p ++ vip_monitoring) :=
  C4_param_string envNova "nova" rdEmpty "10.0.0.5" "eth0" (by decide)

/-- C5, counterexample: with the VIP list `10.0.0.5 10.0.0.5` (one distinct
VIP) the produced group has two members. -/
theorem C5_counterexample :
    groupsLookup (update_hacluster_vip envDupVip "nova" rdEmpty) "grp_nova_vips" =
      some "res_nova_00d7353_vip res_nova_00d7353_vip" ∧
    (pySplitWhitespace "res_nova_00d7353_vip res_nova_00d7353_vip").length = 2 ∧
    (List.dedup (pySplitWhitespace envDupVip.cluster_vip)).length = 1 := by
  decide

/-- C5, amended: the VIP builder produces the group entry `grp_<service>_vips`
exactly when at least one VIP's interface was identified, and its space-joined
member list has one member per VIP occurrence with an identified interface
(multiplicity counted); when no interface resolves, the payload is returned
unchanged. -/
theorem C5_vip_group (env : Env) (s : String) (rd : RelationData) (vips : List String)
    (hg : ∀ l, assocGet rd.others "groups" ≠ some (JVal.list l)) :
    (0 < resolvedCount env vips →
      ∃ ks : List String, ks ≠ [] ∧ ks.length = resolvedCount env vips ∧
        groupsLookup (update_hacluster_vip_on env s vips rd) ("grp_" ++ s ++ "_vips") =
          some (String.intercalate " " ks)) ∧
    (resolvedCount env vips = 0 → update_hacluster_vip_on env s vips rd = rd) := by
  obtain ⟨rd', gN, dN, heq, hgl, hdl, ho, h0⟩ := processVips_spec env s vips rd [] []
  constructor
  · intro hpos
    refine ⟨gN, ?_, hgl, ?_⟩
    · intro hnil
      rw [hnil] at hgl
      rw [← hgl] at hpos
      exact Nat.lt_irrefl 0 hpos
    · unfold update_hacluster_vip_on
      rw [heq]
      simp only [List.nil_append]
      have hdn : dN.isEmpty = false := by
        cases dN with
        | nil =>
          exfalso
          rw [← hdl] at hpos
          exact Nat.lt_irrefl 0 hpos
        | cons a tl => rfl
      have hglen : 1 ≤ gN.length := by rw [hgl]; exact hpos
      rw [hdn]
      simp only [Bool.false_eq_true, if_false, if_pos hglen]
      apply setVipGroups_lookup_self
      intro l hcontr
      rw [mergeDeleteResources_get_ne _ _ _ (by decide), ho] at hcontr
      exact hg l hcontr
  · intro hz
    unfold update_hacluster_vip_on
    rw [heq]
    have hgn : gN = [] := List.eq_nil_of_length_eq_zero (hgl.trans hz)
    have hdn : dN = [] := List.eq_nil_of_length_eq_zero (hdl.trans hz)
    subst hgn
    subst hdn
    simp [h0 hz]

/-- C5, witness for the amended theorem at the nova example. -/
theorem C5_witness :
    (0 < resolvedCount envNova ["10.0.0.5"] →
      ∃ ks : List String, ks ≠ [] ∧ ks.length = resolvedCount envNova ["10.0.0.5"] ∧
        groupsLookup (update_hacluster_vip_on envNova "nova" ["10.0.0.5"] rdEmpty)
          ("grp_" ++ "nova" ++ "_vips") = some (String.intercalate " " ks)) ∧
    (resolvedCount envNova ["10.0.0.5"] = 0 →
      update_hacluster_vip_on envNova "nova" ["10.0.0.5"] rdEmpty = rdEmpty) :=
  C5_vip_group envNova "nova" rdEmpty ["10.0.0.5"]
    (by intro l; simp [rdEmpty, assocGet])

/-- C10: a VIP whose interface neither discovery nor the `vip_iface` config
can supply is silently dropped — the builder's result on any VIP list is the
same as on the list without it, so nothing is recorded for it in resources,
resource_params, the group member list or the pending-deletion list, and no
error is raised (the builder is total). -/
theorem C10_unresolved_vip_dropped (env : Env) (s : String) (rd : RelationData)
    (v : String) (vips1 vips2 : List String)
    (h1 : env.get_iface_for_address v = none) (h2 : env.vip_iface = none) :
    update_hacluster_vip_on env s (vips1 ++ v :: vips2) rd =
      update_hacluster_vip_on env s (vips1 ++ vips2) rd := by
  have hset : (get_vip_settings env v).1 = none := by
    simp [get_vip_settings, h1, h2]
  have hid : ∀ st, processVip env s v st = st :=
    fun st => processVip_none env s v st hset
  unfold update_hacluster_vip_on
  rw [processVips_drop env s v hid vips1 vips2]

/-- C10, witness: dropping the unresolvable VIP from a concrete list. -/
theorem C10_witness :
    update_hacluster_vip_on envMin "svc" (["10.0.0.9"] ++ "10.9.9.9" :: []) rdEmpty =
      update_hacluster_vip_on envMin "svc" (["10.0.0.9"] ++ []) rdEmpty :=
  C10_unresolved_vip_dropped envMin "svc" rdEmpty "10.9.9.9" ["10.0.0.9"] []
    (by decide) (by decide)

/-- C7: the DNS-HA builder first compares the platform release against
"16.04" by lexicographic string comparison; below it reports a blocked status
and raises DNSHAException with a fixed message — independent of all hostname
configuration — and at "16.04" or above it proceeds to the settings loop. -/
theorem C7_version_gate (env : Env) (s crm : String) (rd : RelationData) :
    (pyStrLt env.distrib_release "16.04" = true →
      update_hacluster_dns_ha env s crm rd =
        Except.error ⟨("blocked",
          "DNS HA is only supported on 16.04 and greater versions of Ubuntu."),
          "DNS HA is only supported on 16.04 and greater versions of Ubuntu."⟩) ∧
    (pyStrLt env.distrib_release "16.04" = false →
      update_hacluster_dns_ha env s crm rd = dnsProcess env s crm rd) := by
  constructor
  · intro h
    simp [update_hacluster_dns_ha, assert_charm_supports_dns_ha, h]
  · intro h
    simp [update_hacluster_dns_ha, assert_charm_supports_dns_ha, h]

/-- C7, witness: release "14.04" raises; release "16.04" proceeds. -/
theorem C7_witness :
    update_hacluster_dns_ha envTrusty "nova" "ocf:maas:dns" rdEmpty =
      Except.error ⟨("blocked",
        "DNS HA is only supported on 16.04 and greater versions of Ubuntu."),
        "DNS HA is only supported on 16.04 and greater versions of Ubuntu."⟩ ∧
    update_hacluster_dns_ha envXenial "nova" "ocf:maas:dns" rdEmpty =
      dnsProcess envXenial "nova" "ocf:maas:dns" rdEmpty :=
  ⟨(C7_version_gate envTrusty "nova" "ocf:maas:dns" rdEmpty).1 (by decide),
   (C7_version_gate envXenial "nova" "ocf:maas:dns" rdEmpty).2 (by decide)⟩

/-- C6: after the four DNS settings are processed, the builder sets
`groups[grp_{service}_hostnames]` to the space-joined hostname-key member
list whenever at least one hostname setting is configured, and with no
usable setting it reports a blocked status and raises DNSHAException with
the message that the hostname group has no members. -/
theorem C6_dns_hostname_group (env : Env) (s crm : String) (rd : RelationData)
    (hrel : pyStrLt env.distrib_release "16.04" = false) :
    ((∀ st ∈ dns_settings, env.config_hostname st = none) →
      update_hacluster_dns_ha env s crm rd =
        Except.error ⟨("blocked", "DNS HA: Hostname group has no members."),
          "DNS HA: Hostname group has no members."⟩) ∧
    ((∃ st ∈ dns_settings, (env.config_hostname st).isSome) →
      ∃ rd', update_hacluster_dns_ha env s crm rd = Except.ok rd' ∧
        dnsUsableKeys env s dns_settings ≠ [] ∧
        assocGet rd'.others "groups" =
          some (JVal.dict [("grp_" ++ s ++ "_hostnames",
            String.intercalate " " (dnsUsableKeys env s dns_settings))])) := by
  have hgate : update_hacluster_dns_ha env s crm rd = dnsProcess env s crm rd := by
    simp [update_hacluster_dns_ha, assert_charm_supports_dns_ha, hrel]
  have hep : ∀ st ∈ dns_settings,
      (env.config_hostname st).isSome → (endpointTypeOf st).isSome := by
    intro st hst _
    simp only [dns_settings, List.mem_cons, List.not_mem_nil, or_false] at hst
    rcases hst with rfl | rfl | rfl | rfl <;> decide
  obtain ⟨rd1, hloop⟩ := dnsLoop_ok env s crm dns_settings rd []
    hep (by simpa using dnsUsableKeys_nodup env s)
  constructor
  · intro hall
    have hkeys : dnsUsableKeys env s dns_settings = [] := by
      have h1 := hall "os-admin-hostname" (by simp [dns_settings])
      have h2 := hall "os-internal-hostname" (by simp [dns_settings])
      have h3 := hall "os-public-hostname" (by simp [dns_settings])
      have h4 := hall "os-access-hostname" (by simp [dns_settings])
      simp [dnsUsableKeys, dns_settings, List.filterMap_cons, h1, h2, h3, h4]
    rw [hkeys] at hloop
    simp only [List.append_nil] at hloop
    rw [hgate]
    simp [dnsProcess, hloop]
  · rintro ⟨st, hst, hsome⟩
    have hne : dnsUsableKeys env s dns_settings ≠ [] := by
      obtain ⟨hn, hcfg⟩ := Option.isSome_iff_exists.mp hsome
      obtain ⟨e, he⟩ := Option.isSome_iff_exists.mp (hep st hst hsome)
      have hmem : dnsKeyName s (if e = "internal" then "int" else e) ∈
          dnsUsableKeys env s dns_settings :=
        List.mem_filterMap.mpr ⟨st, hst, by simp [hcfg, he]⟩
      intro hnil
      rw [hnil] at hmem
      exact List.not_mem_nil _ hmem
    have hlen : 1 ≤ (([] : List String) ++ dnsUsableKeys env s dns_settings).length := by
      simpa [List.nil_append] using List.length_pos.mpr hne
    refine ⟨{ rd1 with
        others := assocSet rd1.others "groups" (JVal.dict [("grp_" ++ s ++ "_hostnames",
          String.intercalate " " (dnsUsableKeys env s dns_settings))]) }, ?_, hne, ?_⟩
    · rw [hgate]
      simp only [dnsProcess]
      rw [hloop]
      simp [hlen, hne]
    · simp [assocGet_set_self]

/-- C6, witness: one configured hostname setting yields the hostname group. -/
theorem C6_witness :
    ∃ rd', update_hacluster_dns_ha envDnsAdmin "nova" "ocf:maas:dns" rdEmpty =
        Except.ok rd' ∧
      dnsUsableKeys envDnsAdmin "nova" dns_settings ≠ [] ∧
      assocGet rd'.others "groups" =
        some (JVal.dict [("grp_" ++ "nova" ++ "_hostnames",
          String.intercalate " " (dnsUsableKeys envDnsAdmin "nova" dns_settings))]) := by
  refine (C6_dns_hostname_group envDnsAdmin "nova" "ocf:maas:dns" rdEmpty ?_).2
    ⟨"os-admin-hostname", ?_, ?_⟩
  · decide
  · simp [dns_settings]
  · decide

/-- C8: the endpoint type comes from stripping the `os-` prefix and
`-hostname` suffix, with `internal` shortened to `int`; with only
os-internal-hostname set, the single resource key produced is
`res_<service>_int_hostname`, which differs from
`res_<service>_internal_hostname`. -/
theorem C8_internal_endpoint (env : Env) (s crm : String) (rd : RelationData)
    (hrel : pyStrLt env.distrib_release "16.04" = false)
    (h1 : env.config_hostname "os-admin-hostname" = none)
    (h2 : (env.config_hostname "os-internal-hostname").isSome)
    (h3 : env.config_hostname "os-public-hostname" = none)
    (h4 : env.config_hostname "os-access-hostname" = none)
    (hres : rd.resources = []) :
    (dns_settings.map fun st => (endpointTypeOf st).map
      fun e => if e = "internal" then "int" else e) =
      [some "admin", some "int", some "public", some "access"] ∧
    ∃ rd', update_hacluster_dns_ha env s crm rd = Except.ok rd' ∧
      rd'.resources = [(dnsKeyName s "int", crm)] ∧
      dnsKeyName s "int" ≠ dnsKeyName s "internal" := by
  refine ⟨by decide, ?_⟩
  obtain ⟨hn, h2'⟩ := Option.isSome_iff_exists.mp h2
  have hgate : update_hacluster_dns_ha env s crm rd = dnsProcess env s crm rd := by
    simp [update_hacluster_dns_ha, assert_charm_supports_dns_ha, hrel]
  have he2 : endpointTypeOf "os-internal-hostname" = some "internal" := by decide
  rw [hgate]
  simp only [dnsProcess, dns_settings, dnsLoop, h1, h2', h3, h4, he2]
  simp [hres, assocSet,
    dnsKeyName_ne s (by decide : ("int" : String).data ≠ ("internal" : String).data)]

/-- C8, witness: concrete run with only the internal hostname configured. -/
theorem C8_witness :
    (dns_settings.map fun st => (endpointTypeOf st).map
      fun e => if e = "internal" then "int" else e) =
      [some "admin", some "int", some "public", some "access"] ∧
    ∃ rd', update_hacluster_dns_ha envDnsInternal "nova" "ocf:maas:dns" rdEmpty =
        Except.ok rd' ∧
      rd'.resources = [(dnsKeyName "nova" "int", "ocf:maas:dns")] ∧
      dnsKeyName "nova" "int" ≠ dnsKeyName "nova" "internal" :=
  C8_internal_endpoint envDnsInternal "nova" "ocf:maas:dns" rdEmpty
    (by decide) (by decide) (by decide) (by decide) (by decide) (by decide)

/-- C2: the assembler's serialization keeps exactly the non-empty top-level
items, each under `json_` + key, encoded by the deterministic canonical
encoder (sorted keys via `sortByKey`, separators `,`/`:`); empty values are
dropped, and with no VIPs, haproxy disabled and DNS-HA disabled the result
is the empty payload with no resources/resource_params keys at all. -/
theorem C2_serialized_payload :
    (∀ rd : RelationData,
      (serializePayload rd).map Prod.fst =
        ((payloadItems rd).filter fun kv => jvalTruthy kv.2).map (fun kv => "json_" ++ kv.1) ∧
      ∀ kv, kv ∈ payloadItems rd → jvalTruthy kv.2 = true →
        ("json_" ++ kv.1, jsonDumps kv.2) ∈ serializePayload rd) ∧
    (∀ d : List (String × String),
      List.Sorted (fun a b : String × String => a.1 ≤ b.1) (sortByKey d)) ∧
    generate_ha_relation_data envMin "svc" false none = Except.ok [] := by
  refine ⟨fun rd => ⟨serKeys (payloadItems rd), fun kv hm ht => serMem _ kv hm ht⟩, ?_, ?_⟩
  · intro d
    haveI : IsTotal (String × String) (fun a b => a.1 ≤ b.1) := ⟨fun a b => le_total a.1 b.1⟩
    haveI : IsTrans (String × String) (fun a b => a.1 ≤ b.1) :=
      ⟨fun a b c hab hbc => le_trans hab hbc⟩
    unfold sortByKey
    exact List.sorted_insertionSort _ d
  · rfl

/-- C2, witness: a non-empty resources entry is kept under `json_resources`
with its canonical encoding. -/
theorem C2_witness :
    ("json_" ++ ("resources" : String), jsonDumps (JVal.dict [("a", "b")])) ∈
      serializePayload rdOneRes :=
  (C2_serialized_payload.1 rdOneRes).2 ("resources", JVal.dict [("a", "b")])
    (by decide) (by decide)

/-- C9: expect_ha is true exactly when a related ha unit exists or the vip or
dns-ha config value is truthy, and a NotImplementedError/KeyError from the
related-unit lookup is treated as zero related units, not propagated. -/
theorem C9_expect_ha (env : Env) :
    (expect_ha env = true ↔
      (haRelatedUnits env ≠ [] ∨ env.vip_truthy = true ∨ env.dnsha_truthy = true)) ∧
    ((env.related = RelatedUnits.notImplemented ∨ env.related = RelatedUnits.keyError) →
      haRelatedUnits env = [] ∧ expect_ha env = (env.vip_truthy || env.dnsha_truthy)) := by
  constructor
  · simp [expect_ha, Bool.or_eq_true, decide_eq_true_eq, List.length_pos, or_assoc]
  · rintro (h | h) <;> simp [haRelatedUnits, h, expect_ha]

/-- C9, witness: a NotImplementedError lookup behaves as zero related units. -/
theorem C9_witness :
    haRelatedUnits envNotImpl = [] ∧
    expect_ha envNotImpl = (envNotImpl.vip_truthy || envNotImpl.dnsha_truthy) :=
  (C9_expect_ha envNotImpl).2 (Or.inl rfl)
